import Mathlib

/-!
# report-sql: the query composition and execution layer of `backend/main.go`

A shallow embedding of `generateSQL`, `buildFilterCondition`, `runQuery` and the CSV
shaping loop of `exportToCSV`, followed by the properties of the specification that
concern them.

Modelling conventions:
* Go `string` is `String`; `+`/`+=` on strings is `++`.
* Go `int`/`int64` values are `Int`; every arithmetic operation the program performs is
  reduced with `wrapInt` (two's complement, 64 bit).
* A Go `interface{}` is a value of an arbitrary type `V` together with the two
  observations the program makes of it (`GoValue`): its `%v` rendering and the type
  assertion `.([]interface{})`.
* The database is a record of answers (`DB`); `runQuery` returns everything the handler
  computed, including the list of statements it sent.
-/

namespace ReportSql

/-! ## Go runtime pieces used by the program -/

/-- The observations `main.go` makes of an `interface{}` value: the untyped `nil`
(the result of a map lookup that misses), `fmt.Sprintf("%v", v)`, and the type assertion
`v.([]interface{})`. -/
class GoValue (V : Type) where
  nil : V
  sprint : V → String
  asSlice : V → Option (List V)

/-- Two's complement wrap-around of a 64-bit signed Go integer. -/
def wrapInt (x : Int) : Int := (x + 2 ^ 63) % 2 ^ 64 - 2 ^ 63

/-- Rendering of `%d` for a Go integer: an optional minus sign and the decimal digits. -/
def fmtInt (i : Int) : String :=
  if i < 0 then "-" ++ Nat.repr i.natAbs else Nat.repr i.natAbs

/-- Go `strings.Join(elems, sep)`. -/
def stringsJoin : List String → String → String
  | [], _ => ""
  | [a], _ => a
  | a :: b :: rest, sep => a ++ sep ++ stringsJoin (b :: rest) sep

/-- Go `strings.Contains` on character lists: `sub` occurs in `s` at some position. -/
def containsL : List Char → List Char → Bool
  | [], sub => sub.isEmpty
  | c :: cs, sub => sub.isPrefixOf (c :: cs) || containsL cs sub

/-- Go `strings.Contains(s, substr)`. -/
def stringsContains (s substr : String) : Bool := containsL s.data substr.data

/-- Go `strings.HasPrefix(s, p)`. -/
def stringsHasPrefix (s p : String) : Bool := p.data.isPrefixOf s.data

/-- A Go `map[string]interface{}`: finitely many entries with pairwise distinct keys. -/
structure GoMap (V : Type) where
  entries : List (String × V)
  nodup : (entries.map Prod.fst).Nodup

/-- The key set of a map. -/
def GoMap.keys {V : Type} (m : GoMap V) : List String := m.entries.map Prod.fst

/-- The index expression `m[k]`: the stored value, or `nil` when the key is absent. -/
def GoMap.get {V : Type} [GoValue V] (m : GoMap V) (k : String) : V :=
  match m.entries.lookup k with
  | some v => v
  | none => GoValue.nil

/-! ## Data model (`main.go`, lines 28-59) -/

/-- The Go struct `Filter`. -/
structure Filter (V : Type) where
  Field : String
  Operator : String
  Value : V
  Type_ : String

/-- The Go struct `QueryRequest`. -/
structure QueryRequest (V : Type) where
  Columns : List String
  Filters : List (Filter V)
  SQL : String
  Page : Int
  PageSize : Int
  SortBy : String
  SortOrder : String
  Search : String
  TableName : String

/-- The Go struct `QueryResponse`. -/
structure QueryResponse (V : Type) where
  Data : List (GoMap V)
  Total : Int
  Page : Int
  PageSize : Int
  TotalPages : Int

/-! ## Filter compiler and query builder (`main.go`, lines 128-190) -/

/-- The Go function `buildFilterCondition` (lines 163-190). -/
def buildFilterCondition {V : Type} [GoValue V] (filter : Filter V) : String :=
  let field := filter.Field
  let operator := filter.Operator
  let value := filter.Value
  if operator = "=" ∨ operator = ">" ∨ operator = "<" ∨ operator = ">=" ∨ operator = "<="
      ∨ operator = "!=" then
    " AND " ++ field ++ " " ++ operator ++ " " ++ GoValue.sprint value
  else if operator = "LIKE" then
    " AND " ++ field ++ " LIKE '%" ++ GoValue.sprint value ++ "%'"
  else if operator = "IN" then
    match GoValue.asSlice value with
    | some arr =>
      let values := arr.map (fun v => "'" ++ GoValue.sprint v ++ "'")
      " AND " ++ field ++ " IN (" ++ stringsJoin values "," ++ ")"
    | none => ""
  else if operator = "BETWEEN" then
    match GoValue.asSlice value with
    | some [v0, v1] => " AND " ++ field ++ " BETWEEN " ++ GoValue.sprint v0 ++ " AND " ++ GoValue.sprint v1
    | _ => ""
  else ""

/-- The Go function `generateSQL` (lines 128-161); `query` is threaded through the
statements as in the source, the `for` loop over the filters is a left fold. -/
def generateSQL {V : Type} [GoValue V] (columns : List String) (filters : List (Filter V))
    (tableName : String) (page pageSize : Int) (sortBy sortOrder : String) : String :=
  let query := "SELECT "
  let query := if columns.length > 0 then query ++ stringsJoin columns ", " else query ++ "*"
  let query := query ++ (" FROM " ++ tableName ++ " WHERE 1=1")
  let query := filters.foldl (fun q filter => q ++ buildFilterCondition filter) query
  let query :=
    if sortBy ≠ "" then
      let query := query ++ (" ORDER BY " ++ sortBy)
      if sortOrder = "desc" then query ++ " DESC" else query ++ " ASC"
    else query
  let query :=
    if pageSize > 0 then
      let offset := wrapInt (wrapInt (page - 1) * pageSize)
      query ++ (" LIMIT " ++ fmtInt pageSize ++ " OFFSET " ++ fmtInt offset)
    else query
  query

/-! ## Query executor (`runQuery`, lines 192-264) -/

/-- The answers of the database to the three kinds of statement `runQuery` sends:
the value left in `tableName` by the first-public-table lookup, the value left in `total`
by scanning a COUNT statement (`total` starts at 0, so an error leaves 0 to be reported
here), and the rows or the error of the main statement. -/
structure DB (V : Type) where
  firstTable : String
  scanCount : String → Int
  scanRows : String → Except String (List (GoMap V))

/-- The statement of the first-public-table lookup (line 212). -/
def firstTableQuery : String :=
  "SELECT table_name FROM information_schema.tables WHERE table_schema = 'public' LIMIT 1"

/-- The aggregation test of line 227. -/
def isAggregating (sqlQuery : String) : Bool :=
  stringsContains sqlQuery "GROUP BY" || stringsContains sqlQuery "SUM("
    || stringsContains sqlQuery "COUNT(" || stringsContains sqlQuery "AVG("

/-- The pagination arithmetic of lines 250-253, in `int64`. -/
def totalPagesOf (pageSize total : Int) : Int :=
  if pageSize > 0 ∧ total > 0 then
    wrapInt (Int.tdiv (wrapInt (wrapInt (total + pageSize) - 1)) pageSize)
  else 1

/-- Everything `runQuery` computes for one decoded request: the resolved table, the SELECT
and COUNT texts (`countQuery = ""` when none is derived), the statements sent to the
database in order, the scanned total, and the HTTP result (`error` is the 400 of line 246,
`ok` the 200 body). -/
structure RunResult (V : Type) where
  tableName : String
  sqlQuery : String
  countQuery : String
  executed : List String
  total : Int
  response : Except String (QueryResponse V)

/-- The Go function `runQuery` (lines 199-263) on a successfully bound request. The
local variables keep their names; `executed` is the log of the `db.Raw(..).Scan(..)` calls;
the early return of lines 245-248 is the `error` branch of `response`. -/
def runQuery {V : Type} [GoValue V] (db : DB V) (req : QueryRequest V) : RunResult V :=
  let page := if req.Page ≤ 0 then 1 else req.Page
  let pageSize := if req.PageSize ≤ 0 then 50 else req.PageSize
  let sortOrder := if req.SortOrder = "" then "asc" else req.SortOrder
  let tableName := if req.TableName = "" then db.firstTable else req.TableName
  let executed : List String := if req.TableName = "" then [firstTableQuery] else []
  let sqlQuery :=
    if req.SQL = "" then
      let columns := if req.Columns.length = 0 then ["*"] else req.Columns
      generateSQL columns req.Filters tableName page pageSize req.SortBy sortOrder
    else req.SQL
  let countQuery :=
    if isAggregating sqlQuery then ""
    else req.Filters.foldl (fun q filter => q ++ buildFilterCondition filter)
      ("SELECT COUNT(*) FROM " ++ tableName ++ " WHERE 1=1")
  let total : Int := if countQuery ≠ "" then db.scanCount countQuery else 0
  let executed := if countQuery ≠ "" then executed ++ [countQuery] else executed
  let executed := executed ++ [sqlQuery]
  let response : Except String (QueryResponse V) :=
    match db.scanRows sqlQuery with
    | .error e => .error e
    | .ok results =>
      let totalPages := totalPagesOf pageSize total
      .ok { Data := results, Total := total, Page := page, PageSize := pageSize,
            TotalPages := totalPages }
  { tableName := tableName, sqlQuery := sqlQuery, countQuery := countQuery,
    executed := executed, total := total, response := response }

/-! ## CSV shaping (`exportToCSV`, lines 329-346) -/

/-- The records handed to `writer.Write` by lines 332-346. `rangeOrder` is the order in
which `for k := range results[0]` yields the keys of the first record (Go leaves it
unspecified); the loops append to `head`, `record` and the output as in the source. -/
def csvRecords {V : Type} [GoValue V] (results : List (GoMap V)) (rangeOrder : List String) :
    List (List String) :=
  if results.length > 0 then
    let head := rangeOrder.foldl (fun head k => head ++ [k]) []
    let written := [head]
    results.foldl
      (fun written row =>
        written ++ [head.foldl (fun record k => record ++ [GoValue.sprint (row.get k)]) []])
      written
  else []

/-! ## A concrete value type: JSON-decoded request values -/

/-- The values `encoding/json` stores in an `interface{}`. A number is a `float64`; the
constructor `num` carries only the integers of magnitude below `10^6`, which `%v` prints as
plain decimals (from `10^6` up `%v` switches to the exponent form, e.g. `1e+06`, and
fractions need the shortest-digits algorithm; neither is represented here). -/
inductive JValue where
  | null : JValue
  | bool (b : Bool) : JValue
  | num (n : Int) (small : n.natAbs < 1000000) : JValue
  | str (s : String) : JValue
  | arr (vs : List JValue) : JValue

mutual
/-- The `%v` rendering of a JSON-decoded value. -/
def JValue.sprint : JValue → String
  | .null => "<nil>"
  | .bool b => if b then "true" else "false"
  | .num n _ => fmtInt n
  | .str s => s
  | .arr vs => "[" ++ JValue.sprintElems vs ++ "]"
/-- The elements of a slice under `%v`, separated by blanks. -/
def JValue.sprintElems : List JValue → String
  | [] => ""
  | [v] => JValue.sprint v
  | v :: w :: vs => JValue.sprint v ++ " " ++ JValue.sprintElems (w :: vs)
end

instance : GoValue JValue where
  nil := JValue.null
  sprint := JValue.sprint
  asSlice
    | .arr vs => some vs
    | _ => none

/-! ## Definitions that follow the wording of the specification -/

/-- The projection text of the builder: the joined columns, or `*`. -/
def projectionText (columns : List String) : String :=
  if columns = [] then "*" else ", ".intercalate columns

/-- The shared middle of the SELECT and of its companion COUNT:
`" FROM <table> WHERE 1=1"` followed by the predicate fragments in the order given. -/
def fromWhereText {V : Type} [GoValue V] (tableName : String) (filters : List (Filter V)) :
    String :=
  " FROM " ++ tableName ++ " WHERE 1=1" ++ String.join (filters.map buildFilterCondition)

/-- The optional ORDER BY clause in the words of the specification. -/
def orderClause (sortBy sortOrder : String) : String :=
  if sortBy = "" then ""
  else " ORDER BY " ++ sortBy ++ (if sortOrder = "desc" then " DESC" else " ASC")

/-- The offset `(page-1)*pageSize` as Go computes it on `int`. -/
def goOffset (page pageSize : Int) : Int := wrapInt (wrapInt (page - 1) * pageSize)

/-- The optional LIMIT/OFFSET clause in the words of the specification. -/
def limitClause (page pageSize : Int) : String :=
  if pageSize > 0 then " LIMIT " ++ fmtInt pageSize ++ " OFFSET " ++ fmtInt (goOffset page pageSize)
  else ""

/-- The SELECT text in the words of the specification. -/
def selectTextSpec {V : Type} [GoValue V] (columns : List String) (filters : List (Filter V))
    (tableName : String) (page pageSize : Int) (sortBy sortOrder : String) : String :=
  "SELECT " ++ projectionText columns ++ fromWhereText tableName filters
    ++ orderClause sortBy sortOrder ++ limitClause page pageSize

/-- A text contains another as a substring. -/
def HasSubstring (s sub : String) : Prop := ∃ a b : List Char, s.data = a ++ sub.data ++ b

/-- The ceiling of `total / pageSize` for positive `pageSize`: the least `n` with
`n * pageSize ≥ total`. -/
def IsCeilDiv (total pageSize n : Int) : Prop :=
  total ≤ n * pageSize ∧ ∀ m : Int, total ≤ m * pageSize → n ≤ m

/-- The six comparison operators of the first row of the operator table. -/
def comparisonOps : List String := ["=", ">", "<", ">=", "<=", "!="]

/-- The nine operators the specification lists. -/
def listedOps : List String := comparisonOps ++ ["LIKE", "IN", "BETWEEN"]

/-- The filter of scenario S1. -/
def filterS1 : Filter JValue :=
  { Field := "age", Operator := ">", Value := JValue.num 18 (by decide), Type_ := "number" }

/-- The filter of scenario S1 with operator IN and value ["a","b"] (scenario S2 as worded). -/
def filterS2 : Filter JValue :=
  { filterS1 with Operator := "IN", Value := JValue.arr [.str "a", .str "b"] }

/-- The filter scenario S2 needs for the fragment it names: field `name`. -/
def filterS2Name : Filter JValue :=
  { filterS2 with Field := "name" }

/-! ## Regular expressions (for the builder-shape property) -/

/-- Regular expressions over characters, with character classes as atoms. -/
inductive Rx where
  | none : Rx
  | eps : Rx
  | cls (p : Char → Bool) : Rx
  | cat (a b : Rx) : Rx
  | alt (a b : Rx) : Rx
  | star (a : Rx) : Rx

/-- The strings a regular expression denotes. -/
inductive Rx.Matches : Rx → List Char → Prop where
  | eps : Rx.Matches .eps []
  | cls {p : Char → Bool} {c : Char} : p c = true → Rx.Matches (.cls p) [c]
  | cat {a b : Rx} {s t : List Char} :
      Rx.Matches a s → Rx.Matches b t → Rx.Matches (.cat a b) (s ++ t)
  | altL {a b : Rx} {s : List Char} : Rx.Matches a s → Rx.Matches (.alt a b) s
  | altR {a b : Rx} {s : List Char} : Rx.Matches b s → Rx.Matches (.alt a b) s
  | starNil {a : Rx} : Rx.Matches (.star a) []
  | starCons {a : Rx} {s t : List Char} :
      Rx.Matches a s → Rx.Matches (.star a) t → Rx.Matches (.star a) (s ++ t)

/-- Whether the expression accepts the empty string. -/
def Rx.nullable : Rx → Bool
  | .none => false
  | .eps => true
  | .cls _ => false
  | .cat a b => a.nullable && b.nullable
  | .alt a b => a.nullable || b.nullable
  | .star _ => true

/-- Brzozowski derivative by one character. -/
def Rx.deriv : Rx → Char → Rx
  | .none, _ => .none
  | .eps, _ => .none
  | .cls p, c => if p c then .eps else .none
  | .cat a b, c =>
    if a.nullable then .alt (.cat (a.deriv c) b) (b.deriv c) else .cat (a.deriv c) b
  | .alt a b, c => .alt (a.deriv c) (b.deriv c)
  | .star a, c => .cat (a.deriv c) (.star a)

/-- Matching by iterated derivatives. -/
def Rx.rmatch : Rx → List Char → Bool
  | r, [] => r.nullable
  | r, c :: cs => (r.deriv c).rmatch cs

/-- The expression matching exactly the given characters in sequence. -/
def Rx.lit : List Char → Rx
  | [] => .eps
  | c :: cs => .cat (.cls (fun x => x == c)) (Rx.lit cs)

/-- One or more repetitions. -/
def Rx.plus (r : Rx) : Rx := .cat r (.star r)

/-- Zero or one occurrence. -/
def Rx.opt (r : Rx) : Rx := .alt r .eps

/-- The class `.`: any character but the line feed. -/
def dotChar (c : Char) : Bool := c != '\n'

/-- The class `\s` of Go regular expressions: tab, line feed, form feed, carriage return, blank. -/
def spaceChar (c : Char) : Bool :=
  c == '\t' || c == '\n' || c == '\x0c' || c == '\r' || c == ' '

/-- The class `\S`. -/
def nonSpaceChar (c : Char) : Bool := !spaceChar c

/-- The class `\d`. -/
def digitChar (c : Char) : Bool := '0' ≤ c && c ≤ '9'

/-- The group `( AND .+)` of the builder shape. -/
def fragmentRx : Rx := .cat (Rx.lit " AND ".data) (Rx.plus (.cls dotChar))

/-- The group `( ORDER BY \S+ (ASC|DESC))` of the builder shape. -/
def orderRx : Rx :=
  .cat (Rx.lit " ORDER BY ".data) (.cat (Rx.plus (.cls nonSpaceChar))
    (.alt (Rx.lit " ASC".data) (Rx.lit " DESC".data)))

/-- The group `( LIMIT \d+ OFFSET \d+)` of the builder shape. -/
def limitRx : Rx :=
  .cat (Rx.lit " LIMIT ".data) (.cat (Rx.plus (.cls digitChar))
    (.cat (Rx.lit " OFFSET ".data) (Rx.plus (.cls digitChar))))

/-- The expression of testable property 1:
`^SELECT .+ FROM \S+ WHERE 1=1( AND .+)*( ORDER BY \S+ (ASC|DESC))?( LIMIT \d+ OFFSET \d+)?$`. -/
def shapeRx : Rx :=
  .cat (Rx.lit "SELECT ".data) (.cat (Rx.plus (.cls dotChar)) (.cat (Rx.lit " FROM ".data)
    (.cat (Rx.plus (.cls nonSpaceChar)) (.cat (Rx.lit " WHERE 1=1".data)
      (.cat (.star fragmentRx) (.cat (Rx.opt orderRx) (Rx.opt limitRx)))))))

/-- A text has the builder shape when the whole of it matches `shapeRx`. -/
def HasBuilderShape (s : String) : Prop := Rx.Matches shapeRx s.data

/-- The builder-shape test, decided by derivatives. -/
def matchesShape (s : String) : Bool := shapeRx.rmatch s.data


/-! ## Concrete requests and databases of the scenarios -/

/-- The zero value of `QueryRequest`: what JSON binding leaves for absent fields. -/
def zeroRequest : QueryRequest JValue :=
  { Columns := [], Filters := [], SQL := "", Page := 0, PageSize := 0, SortBy := "",
    SortOrder := "", Search := "", TableName := "" }

/-- A database with an empty table: no rows, count 0, first public table `t`. -/
def dbEmpty : DB JValue :=
  { firstTable := "t", scanCount := fun _ => 0, scanRows := fun _ => .ok [] }

/-- A database in which every COUNT answers `n`. -/
def dbCount (n : Int) : DB JValue :=
  { firstTable := "t", scanCount := fun _ => n, scanRows := fun _ => .ok [] }

/-- The BETWEEN filter of scenario S3. -/
def filterS3 : Filter JValue :=
  { Field := "d", Operator := "BETWEEN",
    Value := JValue.arr [.str "2024-01-01", .str "2024-02-01"], Type_ := "date" }

/-- The request of scenario S3. -/
def reqS3 : QueryRequest JValue :=
  { zeroRequest with TableName := "t", Filters := [filterS3] }

/-- The request of scenario S4. -/
def reqS4 : QueryRequest JValue :=
  { zeroRequest with SQL := "SELECT dept, COUNT(*) FROM emp GROUP BY dept" }

/-- A request with a verbatim statement and no columns. -/
def reqVerbatim : QueryRequest JValue :=
  { zeroRequest with SQL := "SELECT 1", TableName := "t" }

/-- A request whose verbatim statement carries its own predicate. -/
def reqVerbatimUsers : QueryRequest JValue :=
  { zeroRequest with SQL := "SELECT id FROM users WHERE age > 30", TableName := "users" }

/-- A request for table `t` with `pageSize` 0 and no verbatim statement. -/
def reqPageSizeZero : QueryRequest JValue :=
  { zeroRequest with TableName := "t", PageSize := 0 }

/-- A request for table `t` with page `2^62` and page size 50. -/
def reqHugePage : QueryRequest JValue :=
  { zeroRequest with TableName := "t", Page := 2 ^ 62, PageSize := 50 }

/-- A request for table `t` with the largest `int` as page size. -/
def reqHugePageSize : QueryRequest JValue :=
  { zeroRequest with TableName := "t", PageSize := 2 ^ 63 - 1 }

/-- A request for table `t` with page size 10. -/
def reqPageSizeTen : QueryRequest JValue :=
  { zeroRequest with TableName := "t", PageSize := 10 }

/-- A filter with an operator outside the table. -/
def filterUnknownOp : Filter JValue :=
  { Field := "age", Operator := "~=", Value := JValue.num 18 (by decide), Type_ := "number" }

/-- A filter whose value contains a line feed. -/
def filterLineFeed : Filter JValue :=
  { Field := "note", Operator := "=", Value := JValue.str "a\nb", Type_ := "text" }

/-- Two result records with the columns `id` and `name`. -/
def rowsTwo : List (GoMap JValue) :=
  [ { entries := [("id", .num 1 (by decide)), ("name", .str "ann")], nodup := by decide },
    { entries := [("id", .num 2 (by decide)), ("name", .str "bob")], nodup := by decide } ]
/-! ## String lemmas -/

theorem foldl_append_init (l : List String) (init : String) :
    l.foldl (fun r s => r ++ s) init = init ++ l.foldl (fun r s => r ++ s) "" := by
  induction l generalizing init with
  | nil => simp
  | cons a l ih =>
    simp only [List.foldl_cons, String.empty_append]
    rw [ih (init ++ a), ih a, String.append_assoc]

theorem join_cons (a : String) (l : List String) : String.join (a :: l) = a ++ String.join l := by
  unfold String.join
  simp only [List.foldl_cons, String.empty_append]
  exact foldl_append_init l a

theorem intercalate_go (sep : String) (acc : String) (l : List String) :
    String.intercalate.go acc sep l = acc ++ String.join (l.map (fun a => sep ++ a)) := by
  induction l generalizing acc with
  | nil => simp [String.intercalate.go, String.join]
  | cons a l ih =>
    simp only [String.intercalate.go, ih, List.map_cons, join_cons, String.append_assoc]

theorem stringsJoin_cons (a : String) (l : List String) (sep : String) :
    stringsJoin (a :: l) sep = a ++ String.join (l.map (fun b => sep ++ b)) := by
  induction l generalizing a with
  | nil => simp [stringsJoin, String.join]
  | cons b l ih =>
    simp only [stringsJoin, ih, List.map_cons, join_cons, String.append_assoc]

theorem stringsJoin_eq_intercalate (l : List String) (sep : String) :
    stringsJoin l sep = sep.intercalate l := by
  cases l with
  | nil => rfl
  | cons a l => rw [stringsJoin_cons]; simp only [String.intercalate, intercalate_go]

theorem foldl_append_eq {α : Type} (g : α → String) (l : List α) (init : String) :
    l.foldl (fun q a => q ++ g a) init = init ++ String.join (l.map g) := by
  induction l generalizing init with
  | nil => simp [String.join]
  | cons a l ih => simp [ih, join_cons, String.append_assoc]

theorem wrapInt_of_range (x : Int) (h1 : -2 ^ 63 ≤ x) (h2 : x < 2 ^ 63) : wrapInt x = x := by
  unfold wrapInt
  rw [Int.emod_eq_of_lt] <;> omega



theorem generateSQL_eq_spec {V : Type} [GoValue V] (columns : List String) (filters : List (Filter V))
    (tableName : String) (page pageSize : Int) (sortBy sortOrder : String) :
    generateSQL columns filters tableName page pageSize sortBy sortOrder
      = selectTextSpec columns filters tableName page pageSize sortBy sortOrder := by
  unfold generateSQL selectTextSpec projectionText fromWhereText orderClause limitClause goOffset
  simp only [foldl_append_eq, stringsJoin_eq_intercalate]
  cases columns <;> by_cases h1 : sortBy = "" <;> by_cases h2 : sortOrder = "desc" <;>
    by_cases h3 : pageSize > 0 <;>
    simp [h1, h2, h3, String.append_assoc, -String.reduceAppend]

/-! ## The filter compiler, operator by operator -/

theorem bfc_comparison {V : Type} [GoValue V] (f : Filter V) (h : f.Operator ∈ comparisonOps) :
    buildFilterCondition f
      = " AND " ++ f.Field ++ " " ++ f.Operator ++ " " ++ GoValue.sprint f.Value := by
  have h' : f.Operator = "=" ∨ f.Operator = ">" ∨ f.Operator = "<" ∨ f.Operator = ">="
      ∨ f.Operator = "<=" ∨ f.Operator = "!=" := by
    simpa [comparisonOps] using h
  unfold buildFilterCondition
  simp only [if_pos h']

theorem bfc_like {V : Type} [GoValue V] (f : Filter V) (h : f.Operator = "LIKE") :
    buildFilterCondition f = " AND " ++ f.Field ++ " LIKE '%" ++ GoValue.sprint f.Value ++ "%'" := by
  unfold buildFilterCondition
  simp only [h]
  rw [if_neg (by decide)]
  exact if_pos trivial

theorem bfc_in {V : Type} [GoValue V] (f : Filter V) (h : f.Operator = "IN") :
    buildFilterCondition f =
      match GoValue.asSlice f.Value with
      | some arr => " AND " ++ f.Field ++ " IN ("
          ++ stringsJoin (arr.map (fun v => "'" ++ GoValue.sprint v ++ "'")) "," ++ ")"
      | none => "" := by
  unfold buildFilterCondition
  simp only [h]
  rw [if_neg (by decide), if_neg (by decide)]
  exact if_pos trivial

theorem bfc_between {V : Type} [GoValue V] (f : Filter V) (h : f.Operator = "BETWEEN") :
    buildFilterCondition f =
      match GoValue.asSlice f.Value with
      | some [v0, v1] =>
        " AND " ++ f.Field ++ " BETWEEN " ++ GoValue.sprint v0 ++ " AND " ++ GoValue.sprint v1
      | _ => "" := by
  unfold buildFilterCondition
  simp only [h]
  rw [if_neg (by decide), if_neg (by decide), if_neg (by decide)]
  exact if_pos trivial

theorem bfc_other {V : Type} [GoValue V] (f : Filter V) (h : f.Operator ∉ listedOps) :
    buildFilterCondition f = "" := by
  have h' : ¬ (f.Operator = "=" ∨ f.Operator = ">" ∨ f.Operator = "<" ∨ f.Operator = ">="
      ∨ f.Operator = "<=" ∨ f.Operator = "!=") ∧ f.Operator ≠ "LIKE" ∧ f.Operator ≠ "IN"
      ∧ f.Operator ≠ "BETWEEN" := by
    simpa [listedOps, comparisonOps, not_or, and_assoc] using h
  unfold buildFilterCondition
  simp only [if_neg h'.1, if_neg h'.2.1, if_neg h'.2.2.1, if_neg h'.2.2.2]

/-! ## Correctness of the derivative matcher -/

theorem Rx.nullable_iff (r : Rx) : r.nullable = true ↔ Rx.Matches r [] := by
  induction r with
  | none => simp [Rx.nullable]; intro h; cases h
  | eps => simp [Rx.nullable]; exact .eps
  | cls p => simp [Rx.nullable]; intro h; cases h
  | cat a b iha ihb =>
    simp only [Rx.nullable, Bool.and_eq_true, iha, ihb]
    constructor
    · rintro ⟨h1, h2⟩; exact Rx.Matches.cat h1 h2
    · intro h
      generalize hs : ([] : List Char) = s at h
      cases h with
      | cat h1 h2 =>
        rename_i s1 t1
        have := List.append_eq_nil.mp hs.symm
        obtain ⟨rfl, rfl⟩ := this
        exact ⟨h1, h2⟩
  | alt a b iha ihb =>
    simp only [Rx.nullable, Bool.or_eq_true, iha, ihb]
    constructor
    · rintro (h | h)
      · exact .altL h
      · exact .altR h
    · intro h
      cases h with
      | altL h => exact Or.inl h
      | altR h => exact Or.inr h
  | star a _ => simp [Rx.nullable]; exact .starNil

theorem Rx.matches_deriv_of_cons {r : Rx} {x : List Char} (h : Rx.Matches r x) :
    ∀ (c : Char) (s : List Char), x = c :: s → Rx.Matches (r.deriv c) s := by
  induction h with
  | eps => intro c s h; cases h
  | @cls p d hp =>
    intro c s h
    cases h
    simp only [Rx.deriv, hp, if_true]
    exact .eps
  | @cat a b s1 t1 h1 h2 ih1 ih2 =>
    intro c s h
    cases s1 with
    | nil =>
      have hn : a.nullable = true := (Rx.nullable_iff a).2 h1
      simp only [Rx.deriv, hn, if_true]
      exact .altR (ih2 c s h)
    | cons d s1 =>
      simp only [List.cons_append, List.cons.injEq] at h
      obtain ⟨rfl, rfl⟩ := h
      have hd := ih1 d s1 rfl
      simp only [Rx.deriv]
      split
      · exact .altL (.cat hd h2)
      · exact .cat hd h2
  | altL h ih => intro c s hx; exact .altL (ih c s hx)
  | altR h ih => intro c s hx; exact .altR (ih c s hx)
  | starNil => intro c s h; cases h
  | @starCons a s1 t1 h1 h2 ih1 ih2 =>
    intro c s h
    cases s1 with
    | nil => exact ih2 c s h
    | cons d s1 =>
      simp only [List.cons_append, List.cons.injEq] at h
      obtain ⟨rfl, rfl⟩ := h
      exact .cat (ih1 d s1 rfl) h2

theorem Rx.matches_cons_of_deriv (r : Rx) :
    ∀ (c : Char) (s : List Char), Rx.Matches (r.deriv c) s → Rx.Matches r (c :: s) := by
  induction r with
  | none => intro c s h; cases h
  | eps => intro c s h; cases h
  | cls p =>
    intro c s h
    simp only [Rx.deriv] at h
    by_cases hp : p c = true
    · rw [if_pos hp] at h
      cases h
      exact .cls hp
    · rw [if_neg hp] at h
      cases h
  | cat a b iha ihb =>
    intro c s h
    simp only [Rx.deriv] at h
    by_cases hn : a.nullable = true
    · rw [if_pos hn] at h
      cases h with
      | altL h =>
        cases h with
        | cat h1 h2 => exact Rx.Matches.cat (iha c _ h1) h2
      | altR h =>
        exact Rx.Matches.cat (s := []) ((Rx.nullable_iff a).1 hn) (ihb c s h)
    · rw [if_neg hn] at h
      cases h with
      | cat h1 h2 => exact Rx.Matches.cat (iha c _ h1) h2
  | alt a b iha ihb =>
    intro c s h
    cases h with
    | altL h => exact .altL (iha c s h)
    | altR h => exact .altR (ihb c s h)
  | star a iha =>
    intro c s h
    cases h with
    | cat h1 h2 => exact Rx.Matches.starCons (iha c _ h1) h2

theorem Rx.rmatch_iff (r : Rx) (s : List Char) : r.rmatch s = true ↔ Rx.Matches r s := by
  induction s generalizing r with
  | nil => exact Rx.nullable_iff r
  | cons c s ih =>
    simp only [Rx.rmatch, ih]
    exact ⟨Rx.matches_cons_of_deriv r c s, fun h => Rx.matches_deriv_of_cons h c s rfl⟩

/-! ## `strings.Contains` finds exactly the substrings -/

theorem containsL_iff (s sub : List Char) : containsL s sub = true ↔ sub <:+: s := by
  induction s with
  | nil =>
    cases sub with
    | nil => simp [containsL]
    | cons c cs => simp [containsL]
  | cons c s ih =>
    simp only [containsL, Bool.or_eq_true, ih, List.isPrefixOf_iff_prefix, List.infix_cons_iff]

theorem stringsContains_iff (s sub : String) : stringsContains s sub = true ↔ HasSubstring s sub := by
  unfold stringsContains HasSubstring
  rw [containsL_iff]
  constructor
  · rintro ⟨a, b, h⟩; exact ⟨a, b, h.symm⟩
  · rintro ⟨a, b, h⟩; exact ⟨a, b, h.symm⟩

theorem isAggregating_iff (s : String) :
    isAggregating s = true
      ↔ (HasSubstring s "GROUP BY" ∨ HasSubstring s "SUM(" ∨ HasSubstring s "COUNT("
          ∨ HasSubstring s "AVG(") := by
  unfold isAggregating
  simp only [Bool.or_eq_true, stringsContains_iff, or_assoc]

/-! ## Pagination arithmetic -/

theorem wrapInt_sub_one (x : Int) : wrapInt (wrapInt x - 1) = wrapInt (x - 1) := by
  unfold wrapInt
  omega

theorem totalPagesOf_exact (pageSize total : Int) (hp : 0 < pageSize) (ht : 0 < total)
    (hsum : total + pageSize - 1 < 2 ^ 63) :
    totalPagesOf pageSize total = (total + pageSize - 1) / pageSize := by
  unfold totalPagesOf
  rw [if_pos ⟨hp, ht⟩, wrapInt_sub_one]
  have h1 : wrapInt (total + pageSize - 1) = total + pageSize - 1 :=
    wrapInt_of_range _ (by omega) hsum
  rw [h1]
  have hnn : 0 ≤ total + pageSize - 1 := by omega
  rw [Int.tdiv_eq_ediv hnn (le_of_lt hp)]
  have hq0 : 0 ≤ (total + pageSize - 1) / pageSize := Int.ediv_nonneg hnn (le_of_lt hp)
  have hq1 : (total + pageSize - 1) / pageSize ≤ total + pageSize - 1 :=
    Int.ediv_le_self _ hnn
  exact wrapInt_of_range _ (by omega) (by omega)

theorem ceilDiv_spec (pageSize total : Int) (hp : 0 < pageSize) :
    IsCeilDiv total pageSize ((total + pageSize - 1) / pageSize) := by
  constructor
  · have h1 := Int.emod_add_ediv (total + pageSize - 1) pageSize
    have h2 := Int.emod_lt_of_pos (total + pageSize - 1) hp
    have h3 : pageSize * ((total + pageSize - 1) / pageSize)
        = (total + pageSize - 1) / pageSize * pageSize := mul_comm _ _
    omega
  · intro m hm
    have h : (total + pageSize - 1) / pageSize < m + 1 := by
      rw [Int.ediv_lt_iff_lt_mul hp]
      have : (m + 1) * pageSize = m * pageSize + pageSize := by ring
      omega
    omega
/-! ## Building matches of the builder-shape expression -/

theorem Rx.matches_lit (l : List Char) : Rx.Matches (Rx.lit l) l := by
  induction l with
  | nil => exact .eps
  | cons c l ih =>
    have hc : Rx.Matches (.cls (fun x => x == c)) [c] := .cls (by simp)
    exact Rx.Matches.cat hc ih

theorem Rx.matches_star_cls (p : Char → Bool) (s : List Char) (h : ∀ c ∈ s, p c = true) :
    Rx.Matches (.star (.cls p)) s := by
  induction s with
  | nil => exact .starNil
  | cons c s ih =>
    have hc : Rx.Matches (.cls p) [c] := .cls (h c (List.mem_cons_self c s))
    exact Rx.Matches.starCons hc (ih (fun d hd => h d (List.mem_cons_of_mem c hd)))

theorem Rx.matches_plus_cls (p : Char → Bool) (s : List Char) (hne : s ≠ [])
    (h : ∀ c ∈ s, p c = true) : Rx.Matches (Rx.plus (.cls p)) s := by
  cases s with
  | nil => exact absurd rfl hne
  | cons c s =>
    have hc : Rx.Matches (.cls p) [c] := .cls (h c (List.mem_cons_self c s))
    exact Rx.Matches.cat hc
      (Rx.matches_star_cls p s (fun d hd => h d (List.mem_cons_of_mem c hd)))

theorem Rx.matches_opt_nil (r : Rx) : Rx.Matches (Rx.opt r) [] := .altR .eps

theorem Rx.matches_opt_of (r : Rx) (s : List Char) (h : Rx.Matches r s) :
    Rx.Matches (Rx.opt r) s := .altL h

/-! ## Decimal renderings -/

theorem digitChar_digit : ∀ d, d < 10 → digitChar (Nat.digitChar d) = true := by
  decide

theorem toDigitsCore_digits (fuel : Nat) : ∀ (n : Nat) (acc : List Char),
    (∀ c ∈ acc, digitChar c = true) →
    ∀ c ∈ Nat.toDigitsCore 10 fuel n acc, digitChar c = true := by
  induction fuel with
  | zero => intro n acc h; simpa [Nat.toDigitsCore] using h
  | succ fuel ih =>
    intro n acc h
    have hacc : ∀ c ∈ Nat.digitChar (n % 10) :: acc, digitChar c = true := by
      intro c hc
      rcases List.mem_cons.mp hc with rfl | hc
      · exact digitChar_digit _ (Nat.mod_lt _ (by decide))
      · exact h c hc
    simp only [Nat.toDigitsCore]
    split
    · exact hacc
    · exact ih _ _ hacc

theorem toDigitsCore_ne_nil (fuel : Nat) : ∀ (n : Nat) (acc : List Char),
    (acc ≠ [] ∨ 0 < fuel) → Nat.toDigitsCore 10 fuel n acc ≠ [] := by
  induction fuel with
  | zero =>
    intro n acc h
    rcases h with h | h
    · simpa [Nat.toDigitsCore] using h
    · exact absurd h (by decide)
  | succ fuel ih =>
    intro n acc _
    simp only [Nat.toDigitsCore]
    split
    · exact List.cons_ne_nil _ _
    · exact ih _ _ (Or.inl (List.cons_ne_nil _ _))

theorem fmtInt_digits (i : Int) (h : 0 ≤ i) :
    (fmtInt i).data ≠ [] ∧ ∀ c ∈ (fmtInt i).data, digitChar c = true := by
  have hlt : ¬ i < 0 := not_lt.mpr h
  simp only [fmtInt, if_neg hlt, Nat.repr, Nat.toDigits, List.asString]
  exact ⟨toDigitsCore_ne_nil _ _ _ (Or.inr (Nat.succ_pos _)),
    toDigitsCore_digits _ _ _ (by simp)⟩

/-! ## Shape of the fragments -/

theorem bfc_empty_or_and {V : Type} [GoValue V] (f : Filter V) :
    buildFilterCondition f = ""
      ∨ ∃ rest : String, buildFilterCondition f = " AND " ++ rest ∧ rest.data ≠ [] := by
  unfold buildFilterCondition
  simp only
  split
  · exact Or.inr ⟨f.Field ++ " " ++ f.Operator ++ " " ++ GoValue.sprint f.Value,
      by simp only [String.append_assoc], by simp [String.data_append]⟩
  · split
    · exact Or.inr ⟨f.Field ++ " LIKE '%" ++ GoValue.sprint f.Value ++ "%'",
        by simp only [String.append_assoc], by simp [String.data_append]⟩
    · split
      · split
        · next arr _ =>
          exact Or.inr ⟨f.Field ++ " IN ("
              ++ stringsJoin (arr.map (fun v => "'" ++ GoValue.sprint v ++ "'")) "," ++ ")",
            by simp only [String.append_assoc], by simp [String.data_append]⟩
        · exact Or.inl rfl
      · split
        · split
          · next v0 v1 _ =>
            exact Or.inr ⟨f.Field ++ " BETWEEN " ++ GoValue.sprint v0 ++ " AND "
                ++ GoValue.sprint v1,
              by simp only [String.append_assoc], by simp [String.data_append]⟩
          · exact Or.inl rfl
        · exact Or.inl rfl

theorem matches_fragments {V : Type} [GoValue V] (filters : List (Filter V))
    (h : ∀ f ∈ filters, ∀ c ∈ (buildFilterCondition f).data, dotChar c = true) :
    Rx.Matches (.star fragmentRx)
      (String.join (filters.map buildFilterCondition)).data := by
  induction filters with
  | nil => exact .starNil
  | cons f fs ih =>
    have ih' := ih (fun g hg => h g (List.mem_cons_of_mem f hg))
    rw [List.map_cons, join_cons, String.data_append]
    rcases bfc_empty_or_and f with he | ⟨rest, hr, hne⟩
    · rw [he]; exact ih'
    · have hf := h f (List.mem_cons_self f fs)
      rw [hr, String.data_append] at hf
      rw [hr, String.data_append]
      exact Rx.Matches.starCons
        (Rx.Matches.cat (Rx.matches_lit _)
          (Rx.matches_plus_cls dotChar _ hne (fun c hc => hf c (List.mem_append_right _ hc))))
        ih'

theorem matches_shape_pieces (proj table frags ord lim : List Char)
    (h1 : Rx.Matches (Rx.plus (.cls dotChar)) proj)
    (h2 : Rx.Matches (Rx.plus (.cls nonSpaceChar)) table)
    (h3 : Rx.Matches (.star fragmentRx) frags)
    (h4 : Rx.Matches (Rx.opt orderRx) ord)
    (h5 : Rx.Matches (Rx.opt limitRx) lim) :
    Rx.Matches shapeRx
      ("SELECT ".data ++ (proj ++ (" FROM ".data ++ (table ++ (" WHERE 1=1".data
        ++ (frags ++ (ord ++ lim))))))) :=
  .cat (Rx.matches_lit _) (.cat h1 (.cat (Rx.matches_lit _) (.cat h2
    (.cat (Rx.matches_lit _) (.cat h3 (.cat h4 h5))))))

theorem matches_order (sortBy sortOrder : String)
    (h : ∀ c ∈ sortBy.data, nonSpaceChar c = true) :
    Rx.Matches (Rx.opt orderRx) (orderClause sortBy sortOrder).data := by
  unfold orderClause
  by_cases hs : sortBy = ""
  · rw [if_pos hs]; exact Rx.matches_opt_nil _
  · rw [if_neg hs]
    have hne : sortBy.data ≠ [] := fun hd => hs (String.ext hd)
    refine Rx.matches_opt_of _ _ ?_
    rw [String.data_append, String.data_append, List.append_assoc]
    refine .cat (Rx.matches_lit _) (.cat (Rx.matches_plus_cls _ _ hne h) ?_)
    by_cases ho : sortOrder = "desc"
    · rw [if_pos ho]; exact .altR (Rx.matches_lit _)
    · rw [if_neg ho]; exact .altL (Rx.matches_lit _)

theorem matches_limit (page pageSize : Int)
    (h : 0 < pageSize → 0 ≤ goOffset page pageSize) :
    Rx.Matches (Rx.opt limitRx) (limitClause page pageSize).data := by
  unfold limitClause
  by_cases hp : pageSize > 0
  · rw [if_pos hp]
    have h1 := fmtInt_digits pageSize (le_of_lt hp)
    have h2 := fmtInt_digits _ (h hp)
    refine Rx.matches_opt_of _ _ ?_
    simp only [String.data_append, List.append_assoc]
    exact .cat (Rx.matches_lit _) (.cat (Rx.matches_plus_cls _ _ h1.1 h1.2)
      (.cat (Rx.matches_lit _) (Rx.matches_plus_cls _ _ h2.1 h2.2)))
  · rw [if_neg hp]; exact Rx.matches_opt_nil _

/-! ## What `runQuery` computes, field by field -/

theorem runQuery_tableName {V : Type} [GoValue V] (db : DB V) (req : QueryRequest V) :
    (runQuery db req).tableName
      = if req.TableName = "" then db.firstTable else req.TableName := rfl

theorem runQuery_sqlQuery {V : Type} [GoValue V] (db : DB V) (req : QueryRequest V) :
    (runQuery db req).sqlQuery
      = if req.SQL = "" then
          generateSQL (if req.Columns.length = 0 then ["*"] else req.Columns) req.Filters
            (runQuery db req).tableName (if req.Page ≤ 0 then 1 else req.Page)
            (if req.PageSize ≤ 0 then 50 else req.PageSize) req.SortBy
            (if req.SortOrder = "" then "asc" else req.SortOrder)
        else req.SQL := rfl

theorem runQuery_countQuery {V : Type} [GoValue V] (db : DB V) (req : QueryRequest V) :
    (runQuery db req).countQuery
      = if isAggregating (runQuery db req).sqlQuery then ""
        else req.Filters.foldl (fun q filter => q ++ buildFilterCondition filter)
          ("SELECT COUNT(*) FROM " ++ (runQuery db req).tableName ++ " WHERE 1=1") := rfl

theorem runQuery_total {V : Type} [GoValue V] (db : DB V) (req : QueryRequest V) :
    (runQuery db req).total
      = if (runQuery db req).countQuery ≠ "" then db.scanCount (runQuery db req).countQuery
        else 0 := rfl

theorem runQuery_executed {V : Type} [GoValue V] (db : DB V) (req : QueryRequest V) :
    (runQuery db req).executed
      = (if (runQuery db req).countQuery ≠ "" then
            (if req.TableName = "" then [firstTableQuery] else [])
              ++ [(runQuery db req).countQuery]
          else (if req.TableName = "" then [firstTableQuery] else []))
        ++ [(runQuery db req).sqlQuery] := rfl

theorem runQuery_response {V : Type} [GoValue V] (db : DB V) (req : QueryRequest V) :
    (runQuery db req).response
      = match db.scanRows (runQuery db req).sqlQuery with
        | .error e => .error e
        | .ok results =>
          .ok { Data := results, Total := (runQuery db req).total,
                Page := if req.Page ≤ 0 then 1 else req.Page,
                PageSize := if req.PageSize ≤ 0 then 50 else req.PageSize,
                TotalPages := totalPagesOf (if req.PageSize ≤ 0 then 50 else req.PageSize)
                  (runQuery db req).total } := rfl

theorem runQuery_response_ok {V : Type} [GoValue V] (db : DB V) (req : QueryRequest V)
    (resp : QueryResponse V) (h : (runQuery db req).response = .ok resp) :
    resp.Total = (runQuery db req).total
    ∧ resp.Page = (if req.Page ≤ 0 then 1 else req.Page)
    ∧ resp.PageSize = (if req.PageSize ≤ 0 then 50 else req.PageSize)
    ∧ resp.TotalPages = totalPagesOf resp.PageSize resp.Total := by
  rw [runQuery_response] at h
  split at h
  · cases h
  · injection h with h
    subst h
    exact ⟨rfl, rfl, rfl, rfl⟩
/-! ## The CSV loops as maps -/

theorem foldl_snoc_eq {α β : Type} (g : α → β) (l : List α) (init : List β) :
    l.foldl (fun acc a => acc ++ [g a]) init = init ++ l.map g := by
  induction l generalizing init with
  | nil => simp
  | cons a l ih => simp [ih]

theorem csvRecords_nil {V : Type} [GoValue V] (rangeOrder : List String) :
    csvRecords ([] : List (GoMap V)) rangeOrder = [] := rfl

theorem csvRecords_cons {V : Type} [GoValue V] (first : GoMap V) (rest : List (GoMap V))
    (rangeOrder : List String) :
    csvRecords (first :: rest) rangeOrder
      = rangeOrder :: (first :: rest).map
          (fun row => rangeOrder.map (fun k => GoValue.sprint (row.get k))) := by
  unfold csvRecords
  have hpos : (first :: rest).length > 0 := Nat.succ_pos _
  simp only [if_pos hpos]
  have hid : rangeOrder.foldl (fun head k => head ++ [k]) [] = rangeOrder := by
    have := foldl_snoc_eq (fun k : String => k) rangeOrder []
    simpa using this
  rw [hid]
  have hrec : ∀ row : GoMap V,
      rangeOrder.foldl (fun record k => record ++ [GoValue.sprint (row.get k)]) []
        = rangeOrder.map (fun k => GoValue.sprint (row.get k)) := by
    intro row
    have := foldl_snoc_eq (fun k : String => GoValue.sprint (row.get k)) rangeOrder []
    simpa using this
  simp only [hrec]
  have := foldl_snoc_eq
    (fun row : GoMap V => rangeOrder.map (fun k => GoValue.sprint (row.get k)))
    (first :: rest) [rangeOrder]
  simpa using this
/-! ## Small facts shared by the claims -/

theorem not_shape_of_matchesShape (s : String) (h : matchesShape s = false) :
    ¬ HasBuilderShape s := by
  intro hs
  have := (Rx.rmatch_iff shapeRx s.data).2 hs
  unfold matchesShape at h
  rw [h] at this
  exact Bool.noConfusion this

theorem string_append_left_cancel (a b c : String) (h : a ++ b = a ++ c) : b = c := by
  have hd := congrArg String.data h
  rw [String.data_append, String.data_append] at hd
  exact String.ext (List.append_cancel_left hd)

theorem hasSubstring_mid (a x b : String) : HasSubstring (a ++ x ++ b) x :=
  ⟨a.data, b.data, by rw [String.data_append, String.data_append]⟩

theorem projectionText_star : projectionText ["*"] = projectionText [] := by decide

theorem max_one_eq (page : Int) : max 1 page = if page ≤ 0 then 1 else page := by
  by_cases h : page ≤ 0
  · rw [if_pos h]; exact max_eq_left (by omega)
  · rw [if_neg h]; exact max_eq_right (by omega)

theorem generateSQL_star {V : Type} [GoValue V] (filters : List (Filter V))
    (tableName : String) (page pageSize : Int) (sortBy sortOrder : String) :
    generateSQL [] filters tableName page pageSize sortBy sortOrder
      = generateSQL ["*"] filters tableName page pageSize sortBy sortOrder := by
  rw [generateSQL_eq_spec, generateSQL_eq_spec]
  unfold selectTextSpec
  rw [projectionText_star]

theorem runQuery_built {V : Type} [GoValue V] (db : DB V) (req : QueryRequest V)
    (hsql : req.SQL = "") :
    (runQuery db req).sqlQuery
      = "SELECT " ++ projectionText req.Columns
          ++ fromWhereText (runQuery db req).tableName req.Filters
          ++ orderClause req.SortBy (if req.SortOrder = "" then "asc" else req.SortOrder)
          ++ limitClause (if req.Page ≤ 0 then 1 else req.Page)
              (if req.PageSize ≤ 0 then 50 else req.PageSize) := by
  rw [runQuery_sqlQuery, if_pos hsql, generateSQL_eq_spec]
  unfold selectTextSpec
  by_cases hc : req.Columns = []
  · have hl : req.Columns.length = 0 := by rw [hc]; rfl
    rw [if_pos hl, projectionText_star, hc]
  · have hl : ¬ req.Columns.length = 0 := fun h => hc (List.length_eq_zero.mp h)
    rw [if_neg hl]
/-! ## Claims -/

/-- C1, refuted as stated: for page 3 and page size 9223372036854775807 the product
`(page-1)*pageSize` is 18446744073709551614, but `generateSQL` computes it on `int` and
emits `OFFSET -2`; through `runQuery`, page `2^62` with page size 50 gives
`OFFSET 9223372036854775758` where the product is 230584300921369395150. -/
theorem offset_wraps :
    generateSQL [] ([] : List (Filter JValue)) "t" 3 9223372036854775807 "" ""
        = "SELECT * FROM t WHERE 1=1 LIMIT 9223372036854775807 OFFSET -2"
    ∧ fmtInt ((3 - 1) * 9223372036854775807) = "18446744073709551614"
    ∧ generateSQL [] ([] : List (Filter JValue)) "t" 3 9223372036854775807 "" ""
        ≠ "SELECT * FROM t WHERE 1=1 LIMIT 9223372036854775807 OFFSET 18446744073709551614"
    ∧ (runQuery dbEmpty reqHugePage).sqlQuery
        = "SELECT * FROM t WHERE 1=1 LIMIT 50 OFFSET 9223372036854775758"
    ∧ fmtInt ((reqHugePage.Page - 1) * 50) = "230584300921369395150" := by
  decide

/-- C1, amended: for every columns list, filter list, table name, page, page size, sort
key and sort order such that, when `pageSize > 0`, `page - 1` and the product
`(page-1)*pageSize` lie within the `int64` range, `generateSQL` returns exactly `"SELECT "`,
the columns joined with `", "` (or `*` for no columns), `" FROM <table> WHERE 1=1"`, the
fragments of the filters in order, the ORDER BY clause when `sortBy` is non-empty (DESC
exactly for `"desc"`, ASC otherwise), and `" LIMIT <pageSize> OFFSET <(page-1)*pageSize>"`
in decimal when `pageSize > 0`. Scenario S1 yields the statement the specification
quotes. -/
theorem generateSQL_exact :
    (∀ (V : Type) [GoValue V] (columns : List String) (filters : List (Filter V))
        (tableName : String) (page pageSize : Int) (sortBy sortOrder : String),
      (0 < pageSize →
        -2 ^ 63 ≤ page - 1 ∧ page - 1 < 2 ^ 63
          ∧ -2 ^ 63 ≤ (page - 1) * pageSize ∧ (page - 1) * pageSize < 2 ^ 63) →
      generateSQL columns filters tableName page pageSize sortBy sortOrder
        = "SELECT " ++ (if columns = [] then "*" else ", ".intercalate columns)
            ++ (" FROM " ++ tableName ++ " WHERE 1=1"
                ++ String.join (filters.map buildFilterCondition))
            ++ (if sortBy = "" then ""
                else " ORDER BY " ++ sortBy ++ (if sortOrder = "desc" then " DESC" else " ASC"))
            ++ (if pageSize > 0 then
                  " LIMIT " ++ fmtInt pageSize ++ " OFFSET " ++ fmtInt ((page - 1) * pageSize)
                else ""))
    ∧ generateSQL ["id", "name"] [filterS1] "users" 2 10 "name" "desc"
        = "SELECT id, name FROM users WHERE 1=1 AND age > 18 ORDER BY name DESC LIMIT 10 OFFSET 10" := by
  refine ⟨?_, by rfl⟩
  intro V _ columns filters tableName page pageSize sortBy sortOrder hr
  rw [generateSQL_eq_spec]
  have hlim : limitClause page pageSize
      = (if pageSize > 0 then
          " LIMIT " ++ fmtInt pageSize ++ " OFFSET " ++ fmtInt ((page - 1) * pageSize)
        else "") := by
    unfold limitClause
    by_cases hp : pageSize > 0
    · obtain ⟨h1, h2, h3, h4⟩ := hr hp
      have hoff : goOffset page pageSize = (page - 1) * pageSize := by
        unfold goOffset
        rw [wrapInt_of_range (page - 1) h1 h2, wrapInt_of_range _ h3 h4]
      rw [if_pos hp, if_pos hp, hoff]
    · rw [if_neg hp, if_neg hp]
  unfold selectTextSpec
  rw [hlim]
  rfl

/-- Witness of C1 (amended): scenario S1, page 2 with page size 10, offset 10. -/
theorem generateSQL_exact_witness :
    generateSQL ["id", "name"] [filterS1] "users" 2 10 "name" "desc"
      = "SELECT id, name FROM users WHERE 1=1 AND age > 18 ORDER BY name DESC LIMIT 10 OFFSET 10" :=
  (generateSQL_exact.1 JValue ["id", "name"] [filterS1] "users" 2 10 "name" "desc"
    (fun _ => by decide)).trans (by decide)

/-- C2, refuted as stated: five inputs of `generateSQL` whose result does not match
`^SELECT .+ FROM \S+ WHERE 1=1( AND .+)*( ORDER BY \S+ (ASC|DESC))?( LIMIT \d+ OFFSET \d+)?$`:
page 0 (negative offset), an empty table name, a sort key with a blank, one empty column
name, and a filter value with a line feed. -/
theorem shape_fails :
    ¬ HasBuilderShape (generateSQL [] ([] : List (Filter JValue)) "t" 0 10 "" "")
    ∧ ¬ HasBuilderShape (generateSQL [] ([] : List (Filter JValue)) "" 1 10 "" "")
    ∧ ¬ HasBuilderShape (generateSQL [] ([] : List (Filter JValue)) "t" 1 10 "name, id" "asc")
    ∧ ¬ HasBuilderShape (generateSQL [""] ([] : List (Filter JValue)) "t" 1 10 "" "")
    ∧ ¬ HasBuilderShape (generateSQL [] [filterLineFeed] "t" 1 10 "" "") :=
  ⟨not_shape_of_matchesShape _ (by decide!), not_shape_of_matchesShape _ (by decide!),
    not_shape_of_matchesShape _ (by decide!), not_shape_of_matchesShape _ (by decide!),
    not_shape_of_matchesShape _ (by decide!)⟩

/-- C2, amended: the result of `generateSQL` matches the builder-shape expression whenever
the projection text is non-empty and free of line feeds, the table name is non-empty and
free of white space, no fragment contains a line feed, the sort key is free of white space,
and the offset is not negative when a page size is given. -/
theorem shape_of_wellformed {V : Type} [GoValue V] (columns : List String)
    (filters : List (Filter V)) (tableName : String) (page pageSize : Int)
    (sortBy sortOrder : String)
    (hproj : (projectionText columns).data ≠ []
      ∧ ∀ c ∈ (projectionText columns).data, dotChar c = true)
    (htable : tableName.data ≠ [] ∧ ∀ c ∈ tableName.data, nonSpaceChar c = true)
    (hfrag : ∀ f ∈ filters, ∀ c ∈ (buildFilterCondition f).data, dotChar c = true)
    (hsort : ∀ c ∈ sortBy.data, nonSpaceChar c = true)
    (hoff : 0 < pageSize → 0 ≤ goOffset page pageSize) :
    HasBuilderShape (generateSQL columns filters tableName page pageSize sortBy sortOrder) := by
  unfold HasBuilderShape
  rw [generateSQL_eq_spec]
  unfold selectTextSpec fromWhereText
  simp only [String.data_append, List.append_assoc]
  exact matches_shape_pieces _ _ _ _ _
    (Rx.matches_plus_cls _ _ hproj.1 hproj.2)
    (Rx.matches_plus_cls _ _ htable.1 htable.2)
    (matches_fragments filters hfrag)
    (matches_order sortBy sortOrder hsort)
    (matches_limit page pageSize hoff)

/-- Witness of C2 (amended): the statement of scenario S1 has the builder shape. -/
theorem shape_of_wellformed_witness :
    HasBuilderShape (generateSQL ["id", "name"] [filterS1] "users" 2 10 "name" "desc") :=
  shape_of_wellformed ["id", "name"] [filterS1] "users" 2 10 "name" "desc"
    (by decide) (by decide) (by decide) (by decide) (by decide)

/-- C3, refuted as stated: the filter of scenario S1 with operator IN and value
`["a","b"]` keeps the field `age`; its fragment is `" AND age IN ('a','b')"`, which is not
the fragment `AND name IN ('a','b')` of scenario S2 and does not contain it. -/
theorem s2_fragment_is_age :
    buildFilterCondition filterS2 = " AND age IN ('a','b')"
    ∧ buildFilterCondition filterS2 ≠ " AND name IN ('a','b')"
    ∧ buildFilterCondition filterS2 ≠ "AND name IN ('a','b')"
    ∧ stringsContains (buildFilterCondition filterS2) "AND name IN ('a','b')" = false := by
  decide

/-- C3, amended: `buildFilterCondition` emits the fragment of the operator table for every
filter: the comparison fragment for the six comparison operators, the LIKE fragment, the
IN fragment with each element quoted and joined by commas when the value is a list, and the
BETWEEN fragment when the value is a list of exactly two elements; the filter with field
`name`, operator IN and value `["a","b"]` gives `" AND name IN ('a','b')"`. -/
theorem buildFilterCondition_table :
    (∀ (V : Type) [GoValue V] (f : Filter V),
      (f.Operator ∈ comparisonOps →
        buildFilterCondition f
          = " AND " ++ f.Field ++ " " ++ f.Operator ++ " " ++ GoValue.sprint f.Value)
      ∧ (f.Operator = "LIKE" →
        buildFilterCondition f
          = " AND " ++ f.Field ++ " LIKE '%" ++ GoValue.sprint f.Value ++ "%'")
      ∧ (f.Operator = "IN" → ∀ vs, GoValue.asSlice f.Value = some vs →
        buildFilterCondition f
          = " AND " ++ f.Field ++ " IN ("
              ++ ",".intercalate (vs.map (fun v => "'" ++ GoValue.sprint v ++ "'")) ++ ")")
      ∧ (f.Operator = "BETWEEN" → ∀ v0 v1, GoValue.asSlice f.Value = some [v0, v1] →
        buildFilterCondition f
          = " AND " ++ f.Field ++ " BETWEEN " ++ GoValue.sprint v0 ++ " AND "
              ++ GoValue.sprint v1))
    ∧ buildFilterCondition filterS2Name = " AND name IN ('a','b')" := by
  refine ⟨fun V _ f => ⟨bfc_comparison f, bfc_like f, ?_, ?_⟩, by decide⟩
  · intro h vs hvs
    rw [bfc_in f h, hvs]
    simp only [stringsJoin_eq_intercalate]
  · intro h v0 v1 hv
    rw [bfc_between f h, hv]

/-- Witness of C3 (amended): the BETWEEN filter of scenario S3. -/
theorem buildFilterCondition_table_witness :
    buildFilterCondition filterS3
      = " AND " ++ "d" ++ " BETWEEN " ++ "2024-01-01" ++ " AND " ++ "2024-02-01" :=
  (buildFilterCondition_table.1 JValue filterS3).2.2.2 (by decide)
    (.str "2024-01-01") (.str "2024-02-01") rfl

/-- C4: a filter whose operator is none of the nine listed ones, or is IN with a value
that is not a list, or is BETWEEN with a value that is not a list of exactly two elements,
compiles to the empty string, and inserting it anywhere in the filter list leaves the
statement built by `generateSQL` unchanged. -/
theorem dropped_filter {V : Type} [GoValue V] (b : Filter V)
    (h : b.Operator ∉ listedOps
      ∨ (b.Operator = "IN" ∧ GoValue.asSlice b.Value = none)
      ∨ (b.Operator = "BETWEEN"
          ∧ ¬ ∃ arr, GoValue.asSlice b.Value = some arr ∧ arr.length = 2)) :
    buildFilterCondition b = ""
    ∧ ∀ (columns : List String) (fs1 fs2 : List (Filter V)) (tableName : String)
        (page pageSize : Int) (sortBy sortOrder : String),
        generateSQL columns (fs1 ++ [b] ++ fs2) tableName page pageSize sortBy sortOrder
          = generateSQL columns (fs1 ++ fs2) tableName page pageSize sortBy sortOrder := by
  have hb : buildFilterCondition b = "" := by
    rcases h with h | ⟨h, hv⟩ | ⟨h, hv⟩
    · exact bfc_other b h
    · rw [bfc_in b h, hv]
    · rw [bfc_between b h]
      split
      · next v0 v1 heq => exact absurd ⟨[v0, v1], heq, rfl⟩ hv
      · rfl
  refine ⟨hb, ?_⟩
  intro columns fs1 fs2 tableName page pageSize sortBy sortOrder
  unfold generateSQL
  simp only [List.foldl_append, List.foldl_cons, List.foldl_nil, hb, String.append_empty]

/-- Witness of C4: a filter with the operator `~=` between the filters of S1 and S3. -/
theorem dropped_filter_witness :
    filterUnknownOp.Operator ∉ listedOps
    ∧ buildFilterCondition filterUnknownOp = ""
    ∧ generateSQL ["id"] ([filterS1] ++ [filterUnknownOp] ++ [filterS3]) "users" 1 10 "" ""
        = generateSQL ["id"] ([filterS1] ++ [filterS3]) "users" 1 10 "" "" :=
  ⟨by decide, (dropped_filter filterUnknownOp (Or.inl (by decide))).1,
    (dropped_filter filterUnknownOp (Or.inl (by decide))).2 ["id"] [filterS1] [filterS3]
      "users" 1 10 "" ""⟩

/-- C5: in `runQuery`, when the SELECT text contains one of the substrings `GROUP BY`,
`SUM(`, `COUNT(`, `AVG(`, no COUNT statement is derived, only the table lookup (if any) and
the SELECT are sent to the database, and the total is 0 (so is the total of every response,
with one page); otherwise the COUNT statement is exactly
`"SELECT COUNT(*) FROM <table> WHERE 1=1"` followed by the fragments of the filters in
order, and it is sent just before the SELECT. Scenario S4 reports total 0 and one page. -/
theorem count_derivation :
    (∀ (V : Type) [GoValue V] (db : DB V) (req : QueryRequest V),
      ((HasSubstring (runQuery db req).sqlQuery "GROUP BY"
          ∨ HasSubstring (runQuery db req).sqlQuery "SUM("
          ∨ HasSubstring (runQuery db req).sqlQuery "COUNT("
          ∨ HasSubstring (runQuery db req).sqlQuery "AVG(") →
        (runQuery db req).countQuery = ""
        ∧ (runQuery db req).executed
            = (if req.TableName = "" then [firstTableQuery] else [])
                ++ [(runQuery db req).sqlQuery]
        ∧ (runQuery db req).total = 0
        ∧ ∀ resp, (runQuery db req).response = .ok resp →
            resp.Total = 0 ∧ resp.TotalPages = 1)
      ∧ (¬ (HasSubstring (runQuery db req).sqlQuery "GROUP BY"
          ∨ HasSubstring (runQuery db req).sqlQuery "SUM("
          ∨ HasSubstring (runQuery db req).sqlQuery "COUNT("
          ∨ HasSubstring (runQuery db req).sqlQuery "AVG(") →
        (runQuery db req).countQuery
            = "SELECT COUNT(*) FROM " ++ (runQuery db req).tableName ++ " WHERE 1=1"
                ++ String.join (req.Filters.map buildFilterCondition)
        ∧ (runQuery db req).executed
            = (if req.TableName = "" then [firstTableQuery] else [])
                ++ [(runQuery db req).countQuery, (runQuery db req).sqlQuery]
        ∧ (runQuery db req).total = db.scanCount (runQuery db req).countQuery))
    ∧ (∀ db : DB JValue,
        (runQuery db reqS4).sqlQuery = "SELECT dept, COUNT(*) FROM emp GROUP BY dept"
        ∧ (runQuery db reqS4).countQuery = ""
        ∧ (runQuery db reqS4).total = 0
        ∧ ∀ resp, (runQuery db reqS4).response = .ok resp →
            resp.Total = 0 ∧ resp.TotalPages = 1) := by
  have main : ∀ (V : Type) [GoValue V] (db : DB V) (req : QueryRequest V),
      isAggregating (runQuery db req).sqlQuery = true →
        (runQuery db req).countQuery = ""
        ∧ (runQuery db req).executed
            = (if req.TableName = "" then [firstTableQuery] else [])
                ++ [(runQuery db req).sqlQuery]
        ∧ (runQuery db req).total = 0
        ∧ ∀ resp, (runQuery db req).response = .ok resp →
            resp.Total = 0 ∧ resp.TotalPages = 1 := by
    intro V _ db req hagg
    have hc : (runQuery db req).countQuery = "" := by
      rw [runQuery_countQuery, if_pos hagg]
    have ht : (runQuery db req).total = 0 := by
      rw [runQuery_total, hc]; rfl
    refine ⟨hc, ?_, ht, ?_⟩
    · rw [runQuery_executed, hc]; rfl
    · intro resp hresp
      obtain ⟨h1, _, _, h4⟩ := runQuery_response_ok db req resp hresp
      rw [ht] at h1
      refine ⟨h1, ?_⟩
      rw [h4, h1]
      unfold totalPagesOf
      rw [if_neg (fun h => absurd h.2 (by decide))]
  refine ⟨fun V _ db req => ⟨fun h => main V db req ((isAggregating_iff _).2 h), ?_⟩, ?_⟩
  · intro h
    have hagg : ¬ isAggregating (runQuery db req).sqlQuery = true :=
      fun ha => h ((isAggregating_iff _).1 ha)
    have hc : (runQuery db req).countQuery
        = "SELECT COUNT(*) FROM " ++ (runQuery db req).tableName ++ " WHERE 1=1"
            ++ String.join (req.Filters.map buildFilterCondition) := by
      rw [runQuery_countQuery, if_neg hagg, foldl_append_eq]
    have hne : (runQuery db req).countQuery ≠ "" := by
      rw [hc]
      intro he
      have hd := congrArg String.data he
      simp [String.data_append] at hd
    refine ⟨hc, ?_, ?_⟩
    · rw [runQuery_executed, if_pos hne]
      simp
    · rw [runQuery_total, if_pos hne]
  · intro db
    have hs : (runQuery db reqS4).sqlQuery = "SELECT dept, COUNT(*) FROM emp GROUP BY dept" :=
      rfl
    have hagg : isAggregating (runQuery db reqS4).sqlQuery = true := by
      rw [hs]; decide
    obtain ⟨h1, _, h3, h4⟩ := main JValue db reqS4 hagg
    exact ⟨rfl, h1, h3, h4⟩

/-- Witness of C5: scenario S4 on the empty database sends the lookup and the SELECT only. -/
theorem count_derivation_witness :
    (runQuery dbEmpty reqS4).countQuery = ""
    ∧ (runQuery dbEmpty reqS4).executed
        = (if reqS4.TableName = "" then [firstTableQuery] else [])
            ++ [(runQuery dbEmpty reqS4).sqlQuery]
    ∧ (runQuery dbEmpty reqS4).total = 0
    ∧ ∀ resp, (runQuery dbEmpty reqS4).response = .ok resp →
        resp.Total = 0 ∧ resp.TotalPages = 1 :=
  (count_derivation.1 JValue dbEmpty reqS4).1
    (Or.inl ((stringsContains_iff _ _).1 (by decide)))

/-- C6, refuted as stated: with two rows counted and the page size 9223372036854775807
the sum `total + pageSize` overflows `int64` and the response carries `totalPages = -1`,
which is neither the ceiling 1 of `2 / pageSize` nor at least 1. -/
theorem totalPages_overflow :
    ∃ resp, (runQuery (dbCount 2) reqHugePageSize).response = .ok resp
      ∧ resp.Total = 2 ∧ resp.PageSize = 9223372036854775807 ∧ resp.TotalPages = -1
      ∧ IsCeilDiv resp.Total resp.PageSize 1 ∧ ¬ 1 ≤ resp.TotalPages := by
  refine ⟨_, rfl, rfl, by decide, by decide, ?_, by decide⟩
  constructor
  · decide
  · intro m hm
    by_contra hlt
    have hm0 : m ≤ 0 := by omega
    have : m * 9223372036854775807 ≤ 0 :=
      Int.mul_nonpos_of_nonpos_of_nonneg hm0 (by decide)
    have h2 : (2 : Int) ≤ m * 9223372036854775807 := hm
    omega

/-- C6, amended: the page size of a response is positive; when the total is positive and
`total + pageSize - 1` fits in `int64`, `totalPages` is the ceiling of `total / pageSize`
(the least `n` with `n * pageSize ≥ total`); when the total is not positive `totalPages`
is 1; in both cases `totalPages ≥ 1`. The arithmetic of lines 250-253 gives 1 whenever the
total or the page size is not positive. -/
theorem totalPages_ceil {V : Type} [GoValue V] (db : DB V) (req : QueryRequest V)
    (resp : QueryResponse V) (h : (runQuery db req).response = .ok resp) :
    0 < resp.PageSize
    ∧ (0 < resp.Total → resp.Total + resp.PageSize - 1 < 2 ^ 63 →
        IsCeilDiv resp.Total resp.PageSize resp.TotalPages ∧ 1 ≤ resp.TotalPages)
    ∧ (resp.Total ≤ 0 → resp.TotalPages = 1)
    ∧ (∀ pageSize total : Int, total ≤ 0 ∨ pageSize ≤ 0 → totalPagesOf pageSize total = 1) := by
  obtain ⟨_, _, h3, h4⟩ := runQuery_response_ok db req resp h
  have hp : 0 < resp.PageSize := by
    rw [h3]
    split <;> omega
  have hone : ∀ pageSize total : Int, total ≤ 0 ∨ pageSize ≤ 0 →
      totalPagesOf pageSize total = 1 := by
    intro pageSize total hle
    unfold totalPagesOf
    rw [if_neg (by omega)]
  refine ⟨hp, ?_, fun ht => by rw [h4]; exact hone _ _ (Or.inl ht), hone⟩
  intro ht hsum
  rw [h4, totalPagesOf_exact _ _ hp ht hsum]
  have hc := ceilDiv_spec resp.PageSize resp.Total hp
  refine ⟨hc, ?_⟩
  by_contra hlt
  have hq : (resp.Total + resp.PageSize - 1) / resp.PageSize ≤ 0 := by omega
  have hmul : (resp.Total + resp.PageSize - 1) / resp.PageSize * resp.PageSize ≤ 0 :=
    Int.mul_nonpos_of_nonpos_of_nonneg hq (le_of_lt hp)
  have := hc.1
  omega

/-- Witness of C6 (amended): 21 rows at page size 10 give 3 pages. -/
theorem totalPages_ceil_witness :
    (runQuery (dbCount 21) reqPageSizeTen).response
        = .ok { Data := [], Total := 21, Page := 1, PageSize := 10, TotalPages := 3 }
    ∧ IsCeilDiv 21 10 3 ∧ (1 : Int) ≤ 3 :=
  ⟨rfl, (totalPages_ceil (dbCount 21) reqPageSizeTen
      { Data := [], Total := 21, Page := 1, PageSize := 10, TotalPages := 3 } rfl).2.1
      (by decide) (by decide)⟩

/-- C7, refuted as stated: a request with no columns and the verbatim statement
`SELECT 1` executes that statement, which does not start with `SELECT * FROM`. -/
theorem verbatim_sql_ignores_columns :
    reqVerbatim.Columns = []
    ∧ (runQuery dbEmpty reqVerbatim).sqlQuery = "SELECT 1"
    ∧ stringsHasPrefix (runQuery dbEmpty reqVerbatim).sqlQuery "SELECT * FROM" = false := by
  decide

/-- C7, amended: every response of `runQuery` echoes the page `max(1, page)` and the page
size (50 when the requested one is not positive); when the `sql` field is empty the
statement is built by `generateSQL` from these, from sort order `asc` when none is given
and from `*` when there are no columns, and with no columns it starts with
`SELECT * FROM`; `generateSQL` returns the same for no columns and for the column `*`;
scenario S3 builds the statement the specification quotes. -/
theorem default_substitutions :
    (∀ (V : Type) [GoValue V] (db : DB V) (req : QueryRequest V),
      (∀ resp, (runQuery db req).response = .ok resp →
        resp.Page = max 1 req.Page
        ∧ resp.PageSize = (if req.PageSize ≤ 0 then 50 else req.PageSize))
      ∧ (req.SQL = "" →
        (runQuery db req).sqlQuery
          = generateSQL (if req.Columns = [] then ["*"] else req.Columns) req.Filters
              (runQuery db req).tableName (max 1 req.Page)
              (if req.PageSize ≤ 0 then 50 else req.PageSize) req.SortBy
              (if req.SortOrder = "" then "asc" else req.SortOrder))
      ∧ (req.SQL = "" → req.Columns = [] →
        ∃ rest, (runQuery db req).sqlQuery = "SELECT * FROM " ++ rest))
    ∧ (∀ (V : Type) [GoValue V] (filters : List (Filter V)) (tableName : String)
        (page pageSize : Int) (sortBy sortOrder : String),
        generateSQL [] filters tableName page pageSize sortBy sortOrder
          = generateSQL ["*"] filters tableName page pageSize sortBy sortOrder)
    ∧ (∀ db : DB JValue,
        (runQuery db reqS3).sqlQuery
          = "SELECT * FROM t WHERE 1=1 AND d BETWEEN 2024-01-01 AND 2024-02-01 LIMIT 50 OFFSET 0") := by
  refine ⟨fun V _ db req => ⟨?_, ?_, ?_⟩, fun V _ => generateSQL_star, fun db => by rfl⟩
  · intro resp hresp
    obtain ⟨_, h2, h3, _⟩ := runQuery_response_ok db req resp hresp
    exact ⟨by rw [h2, max_one_eq], h3⟩
  · intro hsql
    rw [runQuery_sqlQuery, if_pos hsql, max_one_eq]
    by_cases hc : req.Columns = []
    · have hl : req.Columns.length = 0 := by rw [hc]; rfl
      rw [if_pos hl, if_pos hc]
    · have hl : ¬ req.Columns.length = 0 := fun h => hc (List.length_eq_zero.mp h)
      rw [if_neg hl, if_neg hc]
  · intro hsql hc
    refine ⟨(runQuery db req).tableName ++ " WHERE 1=1"
      ++ String.join (req.Filters.map buildFilterCondition)
      ++ orderClause req.SortBy (if req.SortOrder = "" then "asc" else req.SortOrder)
      ++ limitClause (if req.Page ≤ 0 then 1 else req.Page)
          (if req.PageSize ≤ 0 then 50 else req.PageSize), ?_⟩
    rw [runQuery_built db req hsql, hc]
    unfold fromWhereText
    have hp : projectionText [] = "*" := rfl
    rw [hp]
    have hlit : "SELECT * FROM " = "SELECT " ++ "*" ++ " FROM " := by decide
    rw [hlit]
    simp only [String.append_assoc]

/-- Witness of C7 (amended): scenario S3 on the empty database. -/
theorem default_substitutions_witness :
    ∃ rest, (runQuery dbEmpty reqS3).sqlQuery = "SELECT * FROM " ++ rest :=
  (default_substitutions.1 JValue dbEmpty reqS3).2.2 rfl rfl

/-- C8, refuted as stated: for the verbatim statement
`SELECT id FROM users WHERE age > 30` on table `users` the COUNT statement is
`SELECT COUNT(*) FROM users WHERE 1=1`; no text `X` makes the SELECT
`"SELECT <projection>" ++ X ++ <order> ++ <limit>` and the COUNT `"SELECT COUNT(*)" ++ X`. -/
theorem verbatim_count_mismatch :
    (runQuery dbEmpty reqVerbatimUsers).sqlQuery = "SELECT id FROM users WHERE age > 30"
    ∧ (runQuery dbEmpty reqVerbatimUsers).countQuery = "SELECT COUNT(*) FROM users WHERE 1=1"
    ∧ ¬ ∃ proj X ord lim : String,
        (runQuery dbEmpty reqVerbatimUsers).sqlQuery = "SELECT " ++ proj ++ X ++ ord ++ lim
        ∧ (runQuery dbEmpty reqVerbatimUsers).countQuery = "SELECT COUNT(*)" ++ X := by
  have hs : (runQuery dbEmpty reqVerbatimUsers).sqlQuery
      = "SELECT id FROM users WHERE age > 30" := by decide
  have hc : (runQuery dbEmpty reqVerbatimUsers).countQuery
      = "SELECT COUNT(*) FROM users WHERE 1=1" := by decide
  refine ⟨hs, hc, ?_⟩
  rintro ⟨proj, X, ord, lim, h1, h2⟩
  rw [hc] at h2
  have hX : " FROM users WHERE 1=1" = X :=
    string_append_left_cancel "SELECT COUNT(*)" _ _ (by rw [← h2]; decide)
  subst hX
  have hsub : HasSubstring (runQuery dbEmpty reqVerbatimUsers).sqlQuery
      " FROM users WHERE 1=1" := by
    rw [h1, String.append_assoc ("SELECT " ++ proj ++ " FROM users WHERE 1=1") ord lim]
    exact hasSubstring_mid _ _ _
  rw [hs] at hsub
  have := (stringsContains_iff _ _).2 hsub
  exact absurd this (by decide)

/-- C8, amended: for every request with an empty `sql` field for which a COUNT statement
is produced, the SELECT is `"SELECT <projection>" ++ X ++ <order clause> ++ <limit clause>`
and the COUNT is `"SELECT COUNT(*)" ++ X` for the same
`X = " FROM <table> WHERE 1=1<fragments>"`. -/
theorem companion_count_shares {V : Type} [GoValue V] (db : DB V) (req : QueryRequest V)
    (hsql : req.SQL = "") (hcount : (runQuery db req).countQuery ≠ "") :
    (runQuery db req).sqlQuery
        = "SELECT " ++ projectionText req.Columns
            ++ fromWhereText (runQuery db req).tableName req.Filters
            ++ orderClause req.SortBy (if req.SortOrder = "" then "asc" else req.SortOrder)
            ++ limitClause (if req.Page ≤ 0 then 1 else req.Page)
                (if req.PageSize ≤ 0 then 50 else req.PageSize)
    ∧ (runQuery db req).countQuery
        = "SELECT COUNT(*)" ++ fromWhereText (runQuery db req).tableName req.Filters := by
  refine ⟨runQuery_built db req hsql, ?_⟩
  have hagg : ¬ isAggregating (runQuery db req).sqlQuery = true := by
    intro ha
    apply hcount
    rw [runQuery_countQuery, if_pos ha]
  rw [runQuery_countQuery, if_neg hagg, foldl_append_eq]
  unfold fromWhereText
  have hlit : "SELECT COUNT(*) FROM " = "SELECT COUNT(*)" ++ " FROM " := by decide
  rw [hlit]
  simp only [String.append_assoc]

/-- Witness of C8 (amended): scenario S3 on the empty database. -/
theorem companion_count_shares_witness :
    (runQuery dbEmpty reqS3).sqlQuery
        = "SELECT " ++ projectionText reqS3.Columns
            ++ fromWhereText (runQuery dbEmpty reqS3).tableName reqS3.Filters
            ++ orderClause reqS3.SortBy (if reqS3.SortOrder = "" then "asc" else reqS3.SortOrder)
            ++ limitClause (if reqS3.Page ≤ 0 then 1 else reqS3.Page)
                (if reqS3.PageSize ≤ 0 then 50 else reqS3.PageSize)
    ∧ (runQuery dbEmpty reqS3).countQuery
        = "SELECT COUNT(*)" ++ fromWhereText (runQuery dbEmpty reqS3).tableName reqS3.Filters :=
  companion_count_shares dbEmpty reqS3 rfl (by decide)

/-- C9, refuted as stated: the request for table `t` with `pageSize = 0` and an empty
`sql` field builds `SELECT * FROM t WHERE 1=1 LIMIT 50 OFFSET 0`, which contains a
LIMIT/OFFSET clause. -/
theorem pageSize_zero_limits :
    reqPageSizeZero.PageSize = 0 ∧ reqPageSizeZero.SQL = ""
    ∧ (runQuery dbEmpty reqPageSizeZero).sqlQuery = "SELECT * FROM t WHERE 1=1 LIMIT 50 OFFSET 0"
    ∧ stringsContains (runQuery dbEmpty reqPageSizeZero).sqlQuery " LIMIT 50 OFFSET 0" = true := by
  decide

/-- C9, amended: a page size of 0 (or any non-positive one) in a request is replaced by
the default 50: for every request with `pageSize ≤ 0` and an empty `sql` field the
statement built ends with `" LIMIT 50 OFFSET <(page'-1)*50>"`, `page' = max(1, page)`,
the offset computed on Go `int`. -/
theorem pageSize_default_limit {V : Type} [GoValue V] (db : DB V) (req : QueryRequest V)
    (hps : req.PageSize ≤ 0) (hsql : req.SQL = "") :
    (runQuery db req).sqlQuery
      = "SELECT " ++ projectionText req.Columns
          ++ fromWhereText (runQuery db req).tableName req.Filters
          ++ orderClause req.SortBy (if req.SortOrder = "" then "asc" else req.SortOrder)
          ++ (" LIMIT 50 OFFSET " ++ fmtInt (goOffset (max 1 req.Page) 50)) := by
  rw [runQuery_built db req hsql, if_pos hps, max_one_eq]
  unfold limitClause
  have h50 : (50 : Int) > 0 := by decide
  rw [if_pos h50]
  have hlit : " LIMIT 50 OFFSET " = " LIMIT " ++ fmtInt 50 ++ " OFFSET " := by decide
  rw [hlit]

/-- Witness of C9 (amended): page size 0 on table `t`. -/
theorem pageSize_default_limit_witness :
    (runQuery dbEmpty reqPageSizeZero).sqlQuery
      = "SELECT " ++ projectionText reqPageSizeZero.Columns
          ++ fromWhereText (runQuery dbEmpty reqPageSizeZero).tableName reqPageSizeZero.Filters
          ++ orderClause reqPageSizeZero.SortBy
              (if reqPageSizeZero.SortOrder = "" then "asc" else reqPageSizeZero.SortOrder)
          ++ (" LIMIT 50 OFFSET " ++ fmtInt (goOffset (max 1 reqPageSizeZero.Page) 50)) :=
  pageSize_default_limit dbEmpty reqPageSizeZero (by decide) rfl

/-- C10: the CSV records written by `exportToCSV` for a result list: nothing for the
empty list; for `N ≥ 1` results, whatever order `range` yields the keys of the first record
in, exactly `N+1` records, the first being a header that enumerates each key of the first
record exactly once (and nothing else), and record `i+1` having as many fields as the
header, its `j`-th field being the `%v` text of the value of result `i` under the `j`-th
header key. -/
theorem csv_shape :
    (∀ (V : Type) [GoValue V] (rangeOrder : List String),
      csvRecords ([] : List (GoMap V)) rangeOrder = [])
    ∧ (∀ (V : Type) [GoValue V] (first : GoMap V) (rest : List (GoMap V))
        (rangeOrder : List String), rangeOrder.Perm first.keys →
        ∃ header : List String,
          (csvRecords (first :: rest) rangeOrder).length = (first :: rest).length + 1
          ∧ (csvRecords (first :: rest) rangeOrder).head? = some header
          ∧ (∀ k, k ∈ first.keys → header.count k = 1)
          ∧ (∀ k, k ∈ header → k ∈ first.keys)
          ∧ ∀ (i : Nat) (row : GoMap V), (first :: rest).get? i = some row →
              ∃ record : List String,
                (csvRecords (first :: rest) rangeOrder).get? (i + 1) = some record
                ∧ record.length = header.length
                ∧ ∀ (j : Nat) (k : String), header.get? j = some k →
                    record.get? j = some (GoValue.sprint (row.get k))) := by
  refine ⟨fun V _ rangeOrder => rfl, ?_⟩
  intro V _ first rest rangeOrder hperm
  refine ⟨rangeOrder, ?_, ?_, ?_, ?_, ?_⟩
  · rw [csvRecords_cons]; simp
  · rw [csvRecords_cons]; rfl
  · intro k hk
    have hnd : rangeOrder.Nodup := (hperm.nodup_iff).2 first.nodup
    exact List.count_eq_one_of_mem hnd ((hperm.mem_iff).2 hk)
  · intro k hk
    exact (hperm.mem_iff).1 hk
  · intro i row hrow
    refine ⟨rangeOrder.map (fun k => GoValue.sprint (row.get k)), ?_, by simp, ?_⟩
    · rw [csvRecords_cons]
      simp only [List.get?_eq_getElem?] at hrow ⊢
      rw [List.getElem?_cons_succ, List.getElem?_map, hrow]; rfl
    · intro j k hj
      simp only [List.get?_eq_getElem?, List.getElem?_map] at hj ⊢
      rw [hj]; rfl

/-- Witness of C10: two records with the keys `id` and `name`, enumerated as `name`, `id`. -/
theorem csv_shape_witness :
    csvRecords rowsTwo ["name", "id"] = [["name", "id"], ["ann", "1"], ["bob", "2"]]
    ∧ ∃ header : List String,
        (csvRecords rowsTwo ["name", "id"]).length = rowsTwo.length + 1
        ∧ (csvRecords rowsTwo ["name", "id"]).head? = some header := by
  refine ⟨by decide, ?_⟩
  obtain ⟨header, h1, h2, _⟩ := csv_shape.2 JValue
    { entries := [("id", .num 1 (by decide)), ("name", .str "ann")], nodup := by decide }
    [{ entries := [("id", .num 2 (by decide)), ("name", .str "bob")], nodup := by decide }]
    ["name", "id"] (by decide)
  exact ⟨header, h1, h2⟩
end ReportSql
